import Mathlib

/-!
# LGSM Secure Link Management System — verification of the spec against the code

Shallow embedding of the two core components of the repository:

* the spoke agent (`src/spoke/main.py`): instance reconciliation
  (`get_status`, lines 158–194), command dispatch (`run_command`),
  log reading (`get_logs`) and log streaming (`stream_logs`);
* the hub heartbeat loop (`src/hub/app.py`, `heartbeat_monitor`,
  lines 191–207).

OS state (the pwd database, the filesystem, subprocess outcomes) is
passed in explicitly as environment records; pure Python string
operations (`str.split`, `str.strip`, `in`, `str.lower`) are embedded
as executable Lean functions over `List Char` / `String`.
-/

set_option autoImplicit false

namespace LGSM

/-! ## Python string primitives -/

/-- ASCII whitespace as recognised by Python's `str.split()` /
`str.strip()` (space, tab, newline, carriage return, vertical tab,
form feed). -/
def pyIsSpace (c : Char) : Bool :=
  c == ' ' || c == '\t' || c == '\n' || c == '\r' || c == '\x0b' || c == '\x0c'

/-- Worker for `pySplit`: `acc` holds the current (reversed) token. -/
def pySplitAux : List Char → List Char → List (List Char)
  | [], acc => if acc.isEmpty then [] else [acc.reverse]
  | c :: rest, acc =>
    if pyIsSpace c then
      if acc.isEmpty then pySplitAux rest []
      else acc.reverse :: pySplitAux rest []
    else pySplitAux rest (c :: acc)

/-- Python `s.split()` with no separator: split on runs of whitespace,
dropping empty tokens. -/
def pySplit (s : String) : List String :=
  (pySplitAux s.data []).map String.mk

/-- Python `s.strip()`: remove leading and trailing whitespace. -/
def pyStrip (s : String) : String :=
  String.mk (((s.data.dropWhile pyIsSpace).reverse.dropWhile pyIsSpace).reverse)

/-- Contiguous-sublist test on character lists. -/
def charsInfix : List Char → List Char → Bool
  | needle, [] => needle.isEmpty
  | needle, c :: rest => needle.isPrefixOf (c :: rest) || charsInfix needle rest

/-- Python `needle in haystack` for strings: substring containment. -/
def strContains (needle haystack : String) : Bool :=
  charsInfix needle.data haystack.data

/-- Python `s.startswith(pre)`. -/
def pyStartsWith (s pre : String) : Bool :=
  pre.data.isPrefixOf s.data

/-- Python `s.lower()` (ASCII fragment, as used by the source). -/
def pyLower (s : String) : String := s.map Char.toLower

/-- Python truthiness of an `Optional[str]`: `None` and `""` are falsy. -/
def pyTruthyOpt : Option String → Bool
  | none => false
  | some s => !(s == "")

/-! ## Spoke data model (`src/spoke/main.py`)

`Instance` is the dict appended to `all_instances` in `get_status`;
the plain (non-zombie) dicts carry no `is_zombie` key, which we model
as `isZombie = false`. -/

structure Instance where
  user : String
  script : String
  session : Option String
  status : String
  isZombie : Bool
deriving DecidableEq

/-- One entry of the process table as consumed by
`psutil.process_iter(['username', 'cmdline'])`. -/
structure PyProc where
  username : String
  cmdline : List String
deriving DecidableEq

/-- The session-match test `script == s or s.startswith(script + "-")` (line 162). -/
def sessionMatchesScript (script s : String) : Bool :=
  script == s || pyStartsWith s (script ++ "-")

/-- The per-process test of the fallback matcher (lines 168–172):
owner equals the target user, cmdline is non-empty, some cmdline
argument contains the script name as a substring, and the joined,
lowercased cmdline mentions `tmux`. -/
def procMatches (u_name script : String) (p : PyProc) : Bool :=
  p.username == u_name &&
  !p.cmdline.isEmpty &&
  p.cmdline.any (fun arg => strContains script arg) &&
  strContains "tmux" (pyLower (String.intercalate " " p.cmdline))

/-- Computation of `is_running` for one candidate script (lines 162–176): a live
session matches, or — as a fallback — some process corroborates. -/
def scriptIsRunning (u_name script : String) (sessions : List String)
    (procs : List PyProc) : Bool :=
  sessions.any (fun s => sessionMatchesScript script s) ||
  procs.any (fun p => procMatches u_name script p)

/-- The dict built for a discovered script (lines 178–183). -/
def scriptInstance (u_name script : String) (sessions : List String)
    (procs : List PyProc) : Instance :=
  { user := u_name
    script := script
    session := if scriptIsRunning u_name script sessions procs then some script else none
    status := if scriptIsRunning u_name script sessions procs then "running" else "stopped"
    isZombie := false }

/-- The dict built for a zombie session (lines 188–194). -/
def zombieInstance (u_name session : String) : Instance :=
  { user := u_name
    script := session
    session := some session
    status := "running"
    isZombie := true }

/-- Steps 3–4 of `get_status` for one managed user (lines 158–194):
one instance per discovered script, then one zombie instance per
active session whose name is not a member of `scripts`
(`if session not in scripts`, line 187). -/
def reconcile (u_name : String) (scripts sessions : List String)
    (procs : List PyProc) : List Instance :=
  scripts.map (fun script => scriptInstance u_name script sessions procs) ++
  (sessions.filter (fun session => !(scripts.contains session))).map
    (fun session => zombieInstance u_name session)

/-! ## Spoke HTTP handler environment

Everything the handlers obtain from the OS is passed in explicitly:
`targets` is the value of `get_target_users()`, `fileExists` is
`os.path.exists`, `canRead` / `execAccess` are `os.access` with
`R_OK` / `X_OK`, `pwHome` is `pwd.getpwnam(·).pw_dir`, `currentUser`
is `pwd.getpwuid(os.getuid()).pw_name`, `isRoot` is
`os.getuid() == 0`, and `run` gives the outcome of `subprocess.run`
on an argv. -/

structure SubprocRes where
  returncode : Int
  stdout : String
  stderr : String
deriving DecidableEq

structure SpokeEnv where
  targets : List (String × String)
  fileExists : String → Bool
  canRead : String → Bool
  execAccess : String → Bool
  pwHome : String → Option String
  currentUser : String
  isRoot : Bool
  run : List String → SubprocRes

structure HTTPErr where
  status : Nat
  detail : String
deriving DecidableEq

/-- The check `if not script or '/' in script or '\\' in script or
script.startswith('.') or ';' in script or '|' in script or
'&' in script` (lines 217, 258, 350).  Single-character membership
`c in script` is membership of the character in the string. -/
def invalidScriptName (script : String) : Bool :=
  script == "" || script.data.contains '/' || script.data.contains '\\' ||
  pyStartsWith script "." || script.data.contains ';' ||
  script.data.contains '|' || script.data.contains '&'

/-- The `allowed_actions` allow-list (line 212). -/
def allowed_actions : List String := ["start", "stop", "restart", "update", "backup"]

/-- Response of the command dispatcher.  `error` is a raised
`HTTPException`; `unhandledError` is an unhandled Python exception of
the given type escaping the handler (surfacing as HTTP 500). -/
inductive DispatchResponse where
  | ok (message : String)
  | error (e : HTTPErr)
  | unhandledError (exc : String)
deriving DecidableEq

/-- Result of the command dispatcher: the HTTP-level response and the
argv of every process spawned while handling the request. -/
structure DispatchResult where
  response : DispatchResponse
  spawned : List (List String)
deriving DecidableEq

/-- Owner resolution of `run_command` (lines 220–241): with no (or a
falsy) explicit user, pick the first managed user whose home contains
a path `{u_dir}/{script}` that exists (`os.path.exists`, line 228);
with an explicit user, look the home directory up in the pwd
database.  The final `if not target_user or not target_dir` check
(line 240) is the trailing emptiness tests. -/
def resolveCommandUser (env : SpokeEnv) (script : String) (user : Option String) :
    Except HTTPErr (String × String) :=
  if pyTruthyOpt user then
    match env.pwHome (user.getD "") with
    | none => .error ⟨404, "User " ++ user.getD "" ++ " not found"⟩
    | some d =>
      if user.getD "" == "" || d == "" then
        .error ⟨404, "Could not locate script '" ++ script ++ "' for any managed user"⟩
      else .ok (user.getD "", d)
  else
    match env.targets.find? (fun t => env.fileExists (t.2 ++ "/" ++ script)) with
    | none => .error ⟨404, "Could not locate script '" ++ script ++ "' for any managed user"⟩
    | some (u, d) =>
      if u == "" || d == "" then
        .error ⟨404, "Could not locate script '" ++ script ++ "' for any managed user"⟩
      else .ok (u, d)

/-- The `run_command` handler (lines 209–251): validate the action against the
allow-list, validate the script name, resolve the owning user, then
execute line 244 (`current_user = pwd.getpwuid(os.getuid()).pw_name`).
`pwd` is a function-local name bound only by the `import pwd` inside
the explicit-user branch (line 234); on the auto-resolution path that
branch never runs, so line 244 raises an unhandled
`UnboundLocalError` and nothing is spawned.  On the explicit-user
path the command line is built by string formatting (direct when the
caller is the owner or root, wrapped in `sudo -n -u` otherwise) and
launched via `subprocess.Popen(cmd.split(), start_new_session=True)`. -/
def run_command (env : SpokeEnv) (script action : String) (user : Option String) :
    DispatchResult :=
  if !(allowed_actions.contains action) then ⟨.error ⟨400, "Invalid action"⟩, []⟩
  else if invalidScriptName script then
    ⟨.error ⟨400, "Invalid script name"⟩, []⟩
  else
    match resolveCommandUser env script user with
    | .error e => ⟨DispatchResponse.error e, []⟩
    | .ok (target_user, target_dir) =>
      if pyTruthyOpt user then
        ⟨.ok ("Command '" ++ action ++ "' triggered for " ++ script ++ " as " ++ target_user),
         [pySplit (if env.currentUser == target_user || env.isRoot then
             target_dir ++ "/" ++ script ++ " " ++ action
           else
             "sudo -n -u " ++ target_user ++ " " ++ target_dir ++ "/" ++ script ++ " " ++
               action)]⟩
      else
        ⟨.unhandledError "UnboundLocalError", []⟩

/-! ## Log reader (`get_logs`, lines 253–340) -/

inductive LogsResponse where
  | ok (script logs : String)
  | errDict (error : String) (code : Option Int)
  | httpError (status : Nat) (detail : String)
deriving DecidableEq

structure LogsResult where
  response : LogsResponse
  spawned : List (List String)
deriving DecidableEq

/-- The candidate log locations (lines 286–290). -/
def possible_paths (target_dir script : String) : List String :=
  [target_dir ++ "/log/console/" ++ script ++ "-console.log",
   target_dir ++ "/log/console/" ++ script ++ ".log",
   target_dir ++ "/log/" ++ script ++ "-console.log"]

/-- Owner resolution of `get_logs` (lines 266–283): like the
dispatcher's, but the auto-discovery probe is the conventional
console-log path. -/
def resolveLogsUser (env : SpokeEnv) (script : String) (user : Option String) :
    Except LogsResponse (String × String) :=
  if pyTruthyOpt user then
    match env.pwHome (user.getD "") with
    | none => .error (.httpError 404 ("User " ++ user.getD "" ++ " not found"))
    | some d =>
      if user.getD "" == "" || d == "" then
        .error (.httpError 404 "Could not identify user or directory for this script")
      else .ok (user.getD "", d)
  else
    match env.targets.find?
        (fun t => env.fileExists (t.2 ++ "/log/console/" ++ script ++ "-console.log")) with
    | none => .error (.httpError 404 "Could not identify user or directory for this script")
    | some (u, d) =>
      if u == "" || d == "" then
        .error (.httpError 404 "Could not identify user or directory for this script")
      else .ok (u, d)

/-- The privilege-elevated fallback of `get_logs` (lines 319–335),
reached when the direct read was unavailable or failed.  `spawned0`
carries any argv already launched by the direct attempt. -/
def getLogsSudoFallback (env : SpokeEnv) (script target_user log_path : String)
    (lines : Int) (spawned0 : List (List String)) : LogsResult :=
  if env.currentUser != target_user && !env.isRoot then
    let cmd := ["sudo", "-n", "-u", target_user, "tail", "-n", toString lines, log_path]
    let r := env.run cmd
    if r.returncode == 0 then ⟨.ok script r.stdout, spawned0 ++ [cmd]⟩
    else
      let err := pyLower r.stderr
      if strContains "no such file" err then
        ⟨.httpError 404 ("Log file not found at " ++ log_path), spawned0 ++ [cmd]⟩
      else if strContains "password is required" err ||
          strContains "sudo: a password is required" err then
        ⟨.httpError 403
          ("Permission denied. Agent cannot use sudo and doesn't have read access to the log file. Try: sudo chmod 644 "
            ++ log_path), spawned0 ++ [cmd]⟩
      else
        ⟨.errDict ("Failed to read logs: " ++
            (if r.stderr == "" then "Check file permissions" else r.stderr))
          (some r.returncode), spawned0 ++ [cmd]⟩
  else
    ⟨.errDict "Could not read log file. Check if it exists and has content." none, spawned0⟩

/-- The `get_logs` handler (lines 253–340): validate the script name, validate the
`lines` range, resolve the owner, pick the first existing candidate
path (defaulting to the first candidate), try a direct
`tail -n lines` when the file is readable, and otherwise fall back to
the sudo-wrapped read. -/
def get_logs (env : SpokeEnv) (script : String) (user : Option String) (lines : Int) :
    LogsResult :=
  if invalidScriptName script then ⟨.httpError 400 "Invalid script name", []⟩
  else if lines < 1 ∨ lines > 10000 then
    ⟨.httpError 400 "Lines parameter must be between 1 and 10000", []⟩
  else
    match resolveLogsUser env script user with
    | .error e => ⟨e, []⟩
    | .ok (target_user, target_dir) =>
      let paths := possible_paths target_dir script
      let log_path := (paths.find? env.fileExists).getD (paths.headD "")
      if env.fileExists log_path && env.canRead log_path then
        let cmd := ["tail", "-n", toString lines, log_path]
        let r := env.run cmd
        if r.returncode == 0 then ⟨.ok script r.stdout, [cmd]⟩
        else getLogsSudoFallback env script target_user log_path lines [cmd]
      else getLogsSudoFallback env script target_user log_path lines []

/-! ## Log streamer (`stream_logs`, lines 342–391)

The websocket read loop is driven by what the spawned child and the
peer do, which we pass in as a `LoopEvent`: the child produces some
stdout lines and then either signals EOF, or the peer disconnects
(`WebSocketDisconnect`), or some other exception interrupts the
loop.  `closed` records whether the handler called
`websocket.close()`; `terminated` whether it called
`process.terminate()`. -/

inductive LoopEvent where
  | linesThenEof (ls : List String)
  | linesThenDisconnect (ls : List String)
  | linesThenError (ls : List String) (msg : String)
deriving DecidableEq

structure StreamResult where
  sent : List String
  closed : Bool
  spawned : List (List String)
  terminated : Bool
deriving DecidableEq

/-- The `stream_logs` handler (lines 342–391): validate the script name, find the
first managed user owning a console log for the script, then always
spawn `sudo -n -u <owner> tail -f <log>` and forward stripped lines.
On `WebSocketDisconnect` the child is terminated (lines 385–387); on
any other exception an error message is sent and the websocket is
closed without touching the child (lines 388–391). -/
def stream_logs (env : SpokeEnv) (script : String) (ev : LoopEvent) : StreamResult :=
  if invalidScriptName script then
    { sent := ["Invalid script name"], closed := true, spawned := [], terminated := false }
  else
    match env.targets.find?
        (fun t => env.fileExists (t.2 ++ "/log/console/" ++ script ++ "-console.log")) with
    | none =>
      { sent := ["Log file not found for script " ++ script], closed := true,
        spawned := [], terminated := false }
    | some (target_user, target_dir) =>
      if target_user == "" then
        { sent := ["Log file not found for script " ++ script], closed := true,
          spawned := [], terminated := false }
      else
        let log_path := target_dir ++ "/log/console/" ++ script ++ "-console.log"
        let cmd := ["sudo", "-n", "-u", target_user, "tail", "-f", log_path]
        match ev with
        | .linesThenEof ls =>
          { sent := ls.map pyStrip, closed := false, spawned := [cmd], terminated := false }
        | .linesThenDisconnect ls =>
          { sent := ls.map pyStrip, closed := false, spawned := [cmd], terminated := true }
        | .linesThenError ls msg =>
          { sent := ls.map pyStrip ++ ["Error: " ++ msg], closed := true,
            spawned := [cmd], terminated := false }

/-! ## Hub heartbeat monitor (`src/hub/app.py`, lines 191–207)

The loop body polls the spokes one after another inside a single
`async` task: `await client.get(..., timeout=5)` suspends until the
call completes or times out, and only then does the next iteration
start.  `PollOutcome` gives, per spoke, how long its call took and
how it ended. -/

structure HubSpoke where
  id : Nat
  name : String
  ip : String
  port : Nat
  api_key : String
deriving DecidableEq

inductive PollResult where
  | response (status_code : Nat)
  | failure
deriving DecidableEq

structure PollOutcome where
  duration : Nat
  result : PollResult
deriving DecidableEq

/-- The degraded alert message of line 205, built as
(line 205). -/
def degradedMsg (name ip : String) (code : Nat) : String :=
  "⚠️ Spoke Alert: " ++ name ++ " (" ++ ip ++ ") is unresponsive (HTTP " ++ toString code ++ ")"

/-- The offline alert message of line 207, built as the critical-offline text for the spoke. -/
def offlineMsg (name ip : String) : String :=
  "🚨 Spoke CRITICAL: " ++ name ++ " (" ++ ip ++ ") is OFFLINE"

/-- Alerts emitted for one spoke in one cycle (lines 202–207): a
non-200 response yields the degraded alert, an exception (connection
failure or timeout) yields the offline alert, a 200 yields nothing. -/
def spokeAlerts (name ip : String) (r : PollResult) : List String :=
  match r with
  | .response code => if code != 200 then [degradedMsg name ip code] else []
  | .failure => [offlineMsg name ip]

/-- All alerts of one cycle, in polling order. -/
def cycleAlerts (outcome : HubSpoke → PollOutcome) : List HubSpoke → List String
  | [] => []
  | s :: rest => spokeAlerts s.name s.ip (outcome s).result ++ cycleAlerts outcome rest

/-- Timing of one cycle's polls: each spoke's `(start, end)` times,
where a poll starts only when the previous one has finished —
the loop `await`s each `client.get` before moving on. -/
def pollSchedule (outcome : HubSpoke → PollOutcome) : List HubSpoke → Nat →
    List (HubSpoke × Nat × Nat)
  | [], _ => []
  | s :: rest, t =>
    (s, t, t + (outcome s).duration) :: pollSchedule outcome rest (t + (outcome s).duration)

/-- Total duration of a list of polls. -/
def durSum (outcome : HubSpoke → PollOutcome) (l : List HubSpoke) : Nat :=
  (l.map (fun s => (outcome s).duration)).sum

/-! ## Concrete environments used by witnesses and counterexamples -/

/-- A host with one managed user `alice` whose console log for
`myserver` exists and is readable, the agent itself running as
`alice`. -/
def envAlice : SpokeEnv :=
  { targets := [("alice", "/home/alice")]
    fileExists := fun p => p == "/home/alice/log/console/myserver-console.log" ||
      p == "/home/alice/myserver"
    canRead := fun _ => true
    execAccess := fun _ => true
    pwHome := fun u => if u == "alice" then some "/home/alice" else none
    currentUser := "alice"
    isRoot := false
    run := fun _ => ⟨0, "LOGDATA", ""⟩ }

/-- A host where no managed user owns any file at all. -/
def envEmpty : SpokeEnv :=
  { targets := [("u1", "/home/u1")]
    fileExists := fun _ => false
    canRead := fun _ => false
    execAccess := fun _ => false
    pwHome := fun _ => none
    currentUser := "agent"
    isRoot := false
    run := fun _ => ⟨1, "", ""⟩ }

/-- Two managed users: `u1`'s home holds a NON-executable file named
`myserver`, `u2`'s home holds an executable one.  The agent runs as
`agent` (neither user, not root). -/
def envTwoUsers : SpokeEnv :=
  { targets := [("u1", "/home/u1"), ("u2", "/home/u2")]
    fileExists := fun p => p == "/home/u1/myserver" || p == "/home/u2/myserver"
    canRead := fun _ => true
    execAccess := fun p => p == "/home/u2/myserver"
    pwHome := fun _ => none
    currentUser := "agent"
    isRoot := false
    run := fun _ => ⟨0, "", ""⟩ }

/-- One managed user `u1` whose home holds a file `myserver` that
exists but is NOT executable; no executable matching the script name
exists anywhere. -/
def envNonExec : SpokeEnv :=
  { targets := [("u1", "/home/u1")]
    fileExists := fun p => p == "/home/u1/myserver"
    canRead := fun _ => true
    execAccess := fun _ => false
    pwHome := fun _ => none
    currentUser := "agent"
    isRoot := false
    run := fun _ => ⟨0, "", ""⟩ }

/-- One managed user `gu` whose home holds a script named
`my server` (with a space); the agent runs as `gu`. -/
def envSpace : SpokeEnv :=
  { targets := [("gu", "/home/gu")]
    fileExists := fun p => p == "/home/gu/my server"
    canRead := fun _ => true
    execAccess := fun _ => true
    pwHome := fun u => if u == "game user" then some "/home/gu" else none
    currentUser := "gu"
    isRoot := false
    run := fun _ => ⟨0, "", ""⟩ }

/-- Two registered spokes for the heartbeat scenarios. -/
def spokeAlpha : HubSpoke := ⟨1, "alpha", "10.0.0.1", 49950, "k1"⟩

def spokeBeta : HubSpoke := ⟨2, "beta", "10.0.0.2", 49950, "k2"⟩

/-- Spoke `alpha` is unreachable: its poll runs into the full
5-second timeout; `beta` answers 200 within a second. -/
def outcomeSlow : HubSpoke → PollOutcome :=
  fun s => if s.id == 1 then ⟨5, .failure⟩ else ⟨1, .response 200⟩

/-- Both spokes answer 200 within a second. -/
def outcomeFast : HubSpoke → PollOutcome :=
  fun s => if s.id == 1 then ⟨1, .response 200⟩ else ⟨1, .response 200⟩

/-- Whether a dispatcher response is a validation error (HTTP 400). -/
def dispatchIsValidationError : DispatchResponse → Bool
  | .error e => e.status == 400
  | .ok _ => false
  | .unhandledError _ => false

/-- Whether a log-reader response is a validation error (HTTP 400). -/
def logsIsValidationError : LogsResponse → Bool
  | .httpError s _ => s == 400
  | .ok _ _ => false
  | .errDict _ _ => false

/-! # Theorems -/

/-! ## General helper lemmas -/

theorem str_data_append (a b : String) : (a ++ b).data = a.data ++ b.data := rfl

/-- The byte-level bad-name check is hit by every name in the claim's
bad set. -/
theorem claimBad_invalidScriptName (script : String)
    (h : script = "" ∨ script.data.contains '/' = true ∨ script.data.contains '\\' = true ∨
      pyStartsWith script "." = true ∨ script.data.contains ';' = true ∨
      script.data.contains '|' = true ∨ script.data.contains '&' = true) :
    invalidScriptName script = true := by
  unfold invalidScriptName
  rcases h with h | h | h | h | h | h | h
  · subst h; decide
  all_goals (rw [h]; simp)

/-- Tokens produced by `pySplitAux` contain no whitespace, provided
the running token does not. -/
theorem pySplitAux_no_space :
    ∀ (cs acc : List Char), (∀ c ∈ acc, pyIsSpace c = false) →
      ∀ t ∈ pySplitAux cs acc, ∀ c ∈ t, pyIsSpace c = false := by
  intro cs
  induction cs with
  | nil =>
    intro acc hacc t ht c hc
    by_cases hE : acc.isEmpty <;> simp [pySplitAux, hE] at ht
    subst ht
    exact hacc c (List.mem_reverse.mp hc)
  | cons a rest ih =>
    intro acc hacc t ht c hc
    rcases hsp : pyIsSpace a with _ | _
    · rw [show pySplitAux (a :: rest) acc = pySplitAux rest (a :: acc) by
        simp [pySplitAux, hsp]] at ht
      refine ih (a :: acc) ?_ t ht c hc
      intro x hx
      rcases List.mem_cons.mp hx with h | h
      · subst h; exact hsp
      · exact hacc x h
    · by_cases hE : acc.isEmpty
      · rw [show pySplitAux (a :: rest) acc = pySplitAux rest [] by
          simp [pySplitAux, hsp, hE]] at ht
        exact ih [] (by simp) t ht c hc
      · rw [show pySplitAux (a :: rest) acc = acc.reverse :: pySplitAux rest [] by
          simp [pySplitAux, hsp, hE]] at ht
        rcases List.mem_cons.mp ht with h | h
        · subst h; exact hacc c (List.mem_reverse.mp hc)
        · exact ih [] (by simp) t h c hc

/-- No token of Python's `split()` contains whitespace. -/
theorem pySplit_no_space (s : String) :
    ∀ t ∈ pySplit s, ∀ c ∈ t.data, pyIsSpace c = false := by
  intro t ht c hc
  unfold pySplit at ht
  rcases List.mem_map.mp ht with ⟨l, hl, rfl⟩
  exact pySplitAux_no_space s.data [] (by simp) l hl c hc

/-- Every argv spawned by the dispatcher is the whitespace-split of
some formatted command string. -/
theorem run_command_spawn_shape (env : SpokeEnv) (script action : String)
    (user : Option String) (argv : List String)
    (h : argv ∈ (run_command env script action user).spawned) :
    ∃ s : String, argv = pySplit s := by
  unfold run_command at h
  split at h
  · simp at h
  · split at h
    · simp at h
    · split at h
      · simp at h
      · split at h
        · simp only [List.mem_singleton] at h
          exact ⟨_, h⟩
        · simp at h

/-- Resolution in `resolveCommandUser` only fails with 404 errors. -/
theorem resolveCommandUser_error_status (env : SpokeEnv) (script : String)
    (user : Option String) (e : HTTPErr)
    (h : resolveCommandUser env script user = .error e) : e.status = 404 := by
  unfold resolveCommandUser at h
  split at h
  · split at h
    · cases h; rfl
    · split at h
      · cases h; rfl
      · cases h
  · split at h
    · cases h; rfl
    · split at h
      · cases h; rfl
      · cases h

/-- First character of `s ++ t` when `s` begins with `c`. -/
theorem append_data_head (s t : String) (c : Char) (h : s.data.head? = some c) :
    (s ++ t).data.head? = some c := by
  rw [str_data_append]
  cases hs : s.data with
  | nil => simp [hs] at h
  | cons a as =>
    rw [hs] at h
    simpa using h

theorem degradedMsg_head (name ip : String) (code : Nat) :
    (degradedMsg name ip code).data.head? = some '⚠' := by
  unfold degradedMsg
  repeat apply append_data_head
  rfl

theorem offlineMsg_head (name ip : String) :
    (offlineMsg name ip).data.head? = some '🚨' := by
  unfold offlineMsg
  repeat apply append_data_head
  rfl

/-- The two alert messages are distinguishable, whatever the spoke. -/
theorem degradedMsg_ne_offlineMsg (name ip name' ip' : String) (code : Nat) :
    degradedMsg name ip code ≠ offlineMsg name' ip' := by
  intro h
  have h1 := degradedMsg_head name ip code
  rw [h, offlineMsg_head name' ip'] at h1
  exact absurd h1 (by decide)

/-! ## Claim C1 -/

/-- Claim C1 (counterexample): with one discovered script `a` and one
live session `a-x`, the session is consumed by the prefix match (it
makes `a` running), yet — because the zombie check only tests literal
membership `session not in scripts` — it is additionally emitted as a
zombie instance.  The claim that a consumed session is never
additionally emitted as a zombie is therefore false. -/
theorem reconcile_consumed_session_still_zombie :
    sessionMatchesScript "a" "a-x" = true ∧
    reconcile "u" ["a"] ["a-x"] [] =
      [{ user := "u", script := "a", session := some "a", status := "running",
         isZombie := false },
       { user := "u", script := "a-x", session := some "a-x", status := "running",
         isZombie := true }] := by
  decide

/-- Claim C1 (amended): for every managed user the instance list is
the disjoint union of one non-zombie instance per discovered script
(in order — so no script is counted twice, even if several sessions
loosely match it) and one zombie instance per live session whose name
is not literally equal to any discovered script name.  In particular a
session equal to a script name is never emitted as a zombie, but a
session consumed only by the `script + "-"` prefix rule is still
emitted as a zombie in addition to marking its script running. -/
theorem reconcile_disjoint_union (u : String) (scripts sessions : List String)
    (procs : List PyProc) :
    ((reconcile u scripts sessions procs).filter (fun i => !i.isZombie)).map Instance.script
        = scripts ∧
    ((reconcile u scripts sessions procs).filter (fun i => i.isZombie)).map Instance.script
        = sessions.filter (fun s => !(scripts.contains s)) := by
  have hScripts : ∀ l : List String,
      ((l.map (fun s => scriptInstance u s sessions procs)).filter
          (fun i => !i.isZombie)).map Instance.script = l := by
    intro l
    induction l with
    | nil => rfl
    | cons a t ih =>
      simp only [scriptInstance] at ih ⊢
      simp [ih]
  have hScriptsZ : ∀ l : List String,
      (l.map (fun s => scriptInstance u s sessions procs)).filter
          (fun i => i.isZombie) = [] := by
    intro l
    induction l with
    | nil => rfl
    | cons a t ih =>
      simp only [scriptInstance] at ih ⊢
      simp [ih]
  have hZombies : ∀ l : List String,
      ((l.map (fun s => zombieInstance u s)).filter (fun i => i.isZombie)).map
          Instance.script = l := by
    intro l
    induction l with
    | nil => rfl
    | cons a t ih =>
      simp only [zombieInstance] at ih ⊢
      simp [ih]
  have hZombiesN : ∀ l : List String,
      (l.map (fun s => zombieInstance u s)).filter (fun i => !i.isZombie) = [] := by
    intro l
    induction l with
    | nil => rfl
    | cons a t ih =>
      simp only [zombieInstance] at ih ⊢
      simp [ih]
  constructor
  · rw [reconcile, List.filter_append, hZombiesN, List.append_nil, hScripts]
  · rw [reconcile, List.filter_append, hScriptsZ, List.nil_append, hZombies]

/-! ## Claim C2 -/

/-- Claim C2: every script name that contains `/`, `\`, `;`, `|` or
`&`, starts with `.`, or is empty is rejected by the command
dispatcher, the log reader and the log streamer with a validation
error, and no subprocess is spawned by any of the three handlers. -/
theorem bad_script_rejected_before_spawn (env : SpokeEnv) (script action : String)
    (user : Option String) (lines : Int) (ev : LoopEvent)
    (h : script = "" ∨ script.data.contains '/' = true ∨ script.data.contains '\\' = true ∨
      pyStartsWith script "." = true ∨ script.data.contains ';' = true ∨
      script.data.contains '|' = true ∨ script.data.contains '&' = true) :
    ((run_command env script action user).spawned = [] ∧
      dispatchIsValidationError (run_command env script action user).response = true) ∧
    ((get_logs env script user lines).spawned = [] ∧
      logsIsValidationError (get_logs env script user lines).response = true) ∧
    ((stream_logs env script ev).spawned = [] ∧
      (stream_logs env script ev).sent = ["Invalid script name"] ∧
      (stream_logs env script ev).closed = true) := by
  have hinv := claimBad_invalidScriptName script h
  refine ⟨?_, ?_, ?_⟩
  · unfold run_command
    rw [hinv]
    split
    · exact ⟨rfl, rfl⟩
    · exact ⟨rfl, rfl⟩
  · unfold get_logs
    rw [hinv]
    exact ⟨rfl, rfl⟩
  · unfold stream_logs
    rw [hinv]
    exact ⟨rfl, rfl, rfl⟩

/-- Witness for C2 at the concrete bad name `bad;name`. -/
theorem bad_script_rejected_before_spawn_witness :
    ("bad;name" = "" ∨ ("bad;name" : String).data.contains '/' = true ∨
      ("bad;name" : String).data.contains '\\' = true ∨
      pyStartsWith "bad;name" "." = true ∨ ("bad;name" : String).data.contains ';' = true ∨
      ("bad;name" : String).data.contains '|' = true ∨
      ("bad;name" : String).data.contains '&' = true) ∧
    (((run_command envAlice "bad;name" "start" none).spawned = [] ∧
        dispatchIsValidationError (run_command envAlice "bad;name" "start" none).response
          = true) ∧
      ((get_logs envAlice "bad;name" none 100).spawned = [] ∧
        logsIsValidationError (get_logs envAlice "bad;name" none 100).response = true) ∧
      ((stream_logs envAlice "bad;name" (.linesThenEof [])).spawned = [] ∧
        (stream_logs envAlice "bad;name" (.linesThenEof [])).sent = ["Invalid script name"] ∧
        (stream_logs envAlice "bad;name" (.linesThenEof [])).closed = true)) :=
  ⟨by decide,
   bad_script_rejected_before_spawn envAlice "bad;name" "start" none 100 (.linesThenEof [])
     (by decide)⟩

/-! ## Claim C3 -/

/-- Claim C3 (counterexample): the heartbeat loop polls spokes one
after another — `await client.get` completes (or times out) before
the next spoke's poll starts.  With spoke `alpha` unreachable (its
poll eats the full 5-second timeout), spoke `beta`'s poll starts at
time 5 and its alert decision is made at time 6; if `alpha` answers
within 1 second, `beta`'s poll starts at time 1.  The unreachable
spoke therefore delays the polling of the other spoke, refuting the
claimed concurrency. -/
theorem heartbeat_polls_not_concurrent :
    pollSchedule outcomeSlow [spokeAlpha, spokeBeta] 0 =
      [(spokeAlpha, 0, 5), (spokeBeta, 5, 6)] ∧
    pollSchedule outcomeFast [spokeAlpha, spokeBeta] 0 =
      [(spokeAlpha, 0, 1), (spokeBeta, 1, 2)] ∧
    (5 : Nat) ≠ 1 := by
  decide

/-- Claim C3 (amended): within one heartbeat cycle the polls run
sequentially: each call is individually bounded by its own 5-second
timeout, but a spoke's poll starts only after the polls of all spokes
before it have completed, so a slow or timing-out spoke delays the
polling and alerting of every later spoke in that cycle by its own
duration. -/
theorem pollSchedule_sequential (outcome : HubSpoke → PollOutcome)
    (pre post : List HubSpoke) (s : HubSpoke) (t : Nat) :
    pollSchedule outcome (pre ++ s :: post) t =
      pollSchedule outcome pre t ++
        (s, t + durSum outcome pre, t + durSum outcome pre + (outcome s).duration) ::
          pollSchedule outcome post (t + durSum outcome pre + (outcome s).duration) := by
  induction pre generalizing t with
  | nil => simp [pollSchedule, durSum]
  | cons a rest ih =>
    have hds : t + durSum outcome (a :: rest)
        = t + (outcome a).duration + durSum outcome rest := by
      simp only [durSum, List.map_cons, List.sum_cons]
      omega
    simp only [List.cons_append, pollSchedule, List.append_eq]
    rw [ih, hds]

/-! ## Claim C4 -/

/-- Claim C4 (counterexample): on a host where the caller's effective
identity (`alice`) IS the resolved owner, the log reader runs `tail`
directly, but the log streamer still wraps its following tail in
`sudo -n -u alice` — the streamer does not use the reader's
privilege strategy. -/
theorem stream_logs_elevates_for_owner_caller :
    envAlice.currentUser = "alice" ∧
    (get_logs envAlice "myserver" none 100).spawned =
      [["tail", "-n", "100", "/home/alice/log/console/myserver-console.log"]] ∧
    (get_logs envAlice "myserver" none 100).response = .ok "myserver" "LOGDATA" ∧
    (stream_logs envAlice "myserver" (.linesThenEof [])).spawned =
      [["sudo", "-n", "-u", "alice", "tail", "-f",
        "/home/alice/log/console/myserver-console.log"]] := by
  decide

/-- Claim C4 (amended): whenever the streamer resolves an owner, it
spawns the following tail wrapped in `sudo -n -u <owner>`,
unconditionally — regardless of whether the caller's effective
identity matches the owner or is the superuser.  Only the log reader
implements the direct-read-then-elevate strategy. -/
theorem stream_logs_always_sudo (env : SpokeEnv) (script u d : String) (ev : LoopEvent)
    (hinv : invalidScriptName script = false)
    (hfind : env.targets.find?
        (fun t => env.fileExists (t.2 ++ "/log/console/" ++ script ++ "-console.log"))
      = some (u, d))
    (hu : (u == "") = false) :
    (stream_logs env script ev).spawned =
      [["sudo", "-n", "-u", u, "tail", "-f",
        d ++ "/log/console/" ++ script ++ "-console.log"]] := by
  unfold stream_logs
  rw [hinv, hfind]
  cases ev <;> simp [hu]

/-- Witness for C4 (amended) on the `envAlice` host. -/
theorem stream_logs_always_sudo_witness :
    (invalidScriptName "myserver" = false ∧
      envAlice.targets.find?
          (fun t => envAlice.fileExists (t.2 ++ "/log/console/" ++ "myserver" ++ "-console.log"))
        = some ("alice", "/home/alice") ∧
      (("alice" : String) == "") = false) ∧
    (stream_logs envAlice "myserver" (.linesThenDisconnect ["line"])).spawned =
      [["sudo", "-n", "-u", "alice", "tail", "-f",
        "/home/alice" ++ "/log/console/" ++ "myserver" ++ "-console.log"]] :=
  ⟨by decide,
   stream_logs_always_sudo envAlice "myserver" "alice" "/home/alice"
     (.linesThenDisconnect ["line"]) (by decide) (by decide) (by decide)⟩

/-! ## Claim C5 -/

/-- Claim C5 (counterexample): on `envNonExec` no managed user's home
contains an executable matching `myserver` (only a non-executable
file exists), so the claim predicts a not-found failure — but the
auto path, having matched the file by mere existence, reaches line
244 where the function-local name `pwd` is unbound and raises an
unhandled `UnboundLocalError` (HTTP 500), not a not-found.  And on
`envTwoUsers`, where `u2`'s home does hold an executable `myserver`,
the claim predicts a selected user and a triggered dispatch — but the
handler again dies with the same unhandled error and spawns
nothing. -/
theorem run_command_auto_path_unbound_pwd :
    envNonExec.fileExists "/home/u1/myserver" = true ∧
    envNonExec.execAccess "/home/u1/myserver" = false ∧
    (run_command envNonExec "myserver" "start" none).response =
      .unhandledError "UnboundLocalError" ∧
    (run_command envNonExec "myserver" "start" none).spawned = [] ∧
    envTwoUsers.execAccess "/home/u2/myserver" = true ∧
    (run_command envTwoUsers "myserver" "start" none).response =
      .unhandledError "UnboundLocalError" ∧
    (run_command envTwoUsers "myserver" "start" none).spawned = [] := by
  decide

/-- Claim C5 (amended): with no explicit user, `run_command` iterates
the enumerated managed users looking for the first whose home
directory contains a path `{home}/{script}` that exists — existence
only, executability is not checked.  If no managed user's home
contains such a file it fails with 404 without launching anything;
if one is found, the dispatch still launches nothing: the handler
raises an unhandled `UnboundLocalError` at line 244, because `pwd` is
a function-local name bound only in the explicit-user branch. -/
theorem run_command_auto_resolution (envA envB : SpokeEnv) (script action u d : String)
    (hact : allowed_actions.contains action = true)
    (hinv : invalidScriptName script = false)
    (hA : envA.targets.find? (fun t => envA.fileExists (t.2 ++ "/" ++ script)) = none)
    (hB : envB.targets.find? (fun t => envB.fileExists (t.2 ++ "/" ++ script)) = some (u, d))
    (hu : (u == "") = false) (hd : (d == "") = false) :
    ((run_command envA script action none).response =
        .error ⟨404, "Could not locate script '" ++ script ++ "' for any managed user"⟩ ∧
      (run_command envA script action none).spawned = []) ∧
    ((run_command envB script action none).response = .unhandledError "UnboundLocalError" ∧
      (run_command envB script action none).spawned = []) := by
  unfold run_command resolveCommandUser
  rw [hact, hinv]
  simp only [pyTruthyOpt, if_false, Bool.not_true, Bool.false_eq_true, if_neg,
    Bool.not_eq_true]
  rw [hA, hB]
  simp [hu, hd]

/-- Witness for C5 (amended): `envEmpty` has no file anywhere (404,
no spawn), `envTwoUsers` resolves `myserver` to `u1` and then dies
with the unhandled error (no spawn). -/
theorem run_command_auto_resolution_witness :
    (allowed_actions.contains "start" = true ∧
      invalidScriptName "myserver" = false ∧
      envEmpty.targets.find?
          (fun t => envEmpty.fileExists (t.2 ++ "/" ++ "myserver")) = none ∧
      envTwoUsers.targets.find?
          (fun t => envTwoUsers.fileExists (t.2 ++ "/" ++ "myserver"))
        = some ("u1", "/home/u1") ∧
      (("u1" : String) == "") = false ∧ (("/home/u1" : String) == "") = false) ∧
    (((run_command envEmpty "myserver" "start" none).response =
        .error ⟨404, "Could not locate script '" ++ "myserver" ++ "' for any managed user"⟩ ∧
      (run_command envEmpty "myserver" "start" none).spawned = []) ∧
    ((run_command envTwoUsers "myserver" "start" none).response =
        .unhandledError "UnboundLocalError" ∧
      (run_command envTwoUsers "myserver" "start" none).spawned = [])) :=
  ⟨by decide,
   run_command_auto_resolution envEmpty envTwoUsers "myserver" "start" "u1" "/home/u1"
     (by decide) (by decide) (by decide) (by decide) (by decide) (by decide)⟩

/-! ## Claim C6 -/

/-- Claim C6: the dispatcher's validation accepts script names (and
usernames — they are never validated) containing whitespace, and
because the command line is built by string formatting and then split
on whitespace, no spawned argv ever contains the intended absolute
script path `dir ++ "/" ++ script` as a single argument when the
accepted script name contains a space. -/
theorem accepted_space_script_breaks_argv (env : SpokeEnv) (script action : String)
    (user : Option String) (dir : String)
    (hinv : invalidScriptName script = false)
    (hact : allowed_actions.contains action = true)
    (hsp : ' ' ∈ script.data) :
    dispatchIsValidationError (run_command env script action user).response = false ∧
    ∀ argv ∈ (run_command env script action user).spawned,
      ¬ (dir ++ "/" ++ script) ∈ argv := by
  constructor
  · unfold run_command
    rw [hact, hinv]
    simp only [Bool.not_true, Bool.false_eq_true, if_neg, Bool.not_eq_true, if_false,
      Bool.not_eq_true']
    cases hres : resolveCommandUser env script user with
    | error e =>
      have := resolveCommandUser_error_status env script user e hres
      simp [dispatchIsValidationError, this]
    | ok p =>
      by_cases ht : pyTruthyOpt user = true <;> simp [ht, dispatchIsValidationError]
  · intro argv hm hmem
    obtain ⟨cs, rfl⟩ := run_command_spawn_shape env script action user argv hm
    have hsp' : ' ' ∈ (dir ++ "/" ++ script).data := by
      rw [str_data_append]
      exact List.mem_append_right _ hsp
    have := pySplit_no_space cs (dir ++ "/" ++ script) hmem ' ' hsp'
    simp [pyIsSpace] at this

/-- Witness for C6 on the explicit-user path (where the spawn really
happens): the whitespace-bearing username `game user` passes
validation, the command for script `my server` is split into
`["sudo", "-n", "-u", "game", "user", "/home/gu/my", "server",
"start"]`, and no argv element equals the intended path
`/home/gu/my server`. -/
theorem accepted_space_script_breaks_argv_witness :
    (invalidScriptName "my server" = false ∧
      allowed_actions.contains "start" = true ∧ ' ' ∈ ("my server" : String).data) ∧
    (dispatchIsValidationError
        (run_command envSpace "my server" "start" (some "game user")).response = false ∧
      ∀ argv ∈ (run_command envSpace "my server" "start" (some "game user")).spawned,
        ¬ ("/home/gu" ++ "/" ++ "my server") ∈ argv) :=
  ⟨by decide,
   accepted_space_script_breaks_argv envSpace "my server" "start" (some "game user")
     "/home/gu" (by decide) (by decide) (by decide)⟩

/-! ## Claim C7 -/

/-- Claim C7 (counterexample): when an exception other than
`WebSocketDisconnect` interrupts the stream loop, the handler sends
an error, closes the websocket, and never terminates the spawned
tail: the connection is over but the child is left running — an
orphaned tail process. -/
theorem stream_error_path_orphans_tail :
    (stream_logs envAlice "myserver" (.linesThenError [] "readline failed")).spawned ≠ [] ∧
    (stream_logs envAlice "myserver" (.linesThenError [] "readline failed")).closed = true ∧
    (stream_logs envAlice "myserver" (.linesThenError [] "readline failed")).terminated
      = false := by
  decide

/-- Claim C7 (amended): on a `WebSocketDisconnect` the handler
terminates the child whenever one was spawned; but when any other
exception ends the stream, the handler closes the websocket without
terminating the child, so an orphaned tail process is left behind on
that path. -/
theorem stream_logs_termination_behavior (env : SpokeEnv) (script : String)
    (ls : List String) (msg : String) :
    (stream_logs env script (.linesThenDisconnect ls)).terminated =
      !(stream_logs env script (.linesThenDisconnect ls)).spawned.isEmpty ∧
    (stream_logs env script (.linesThenError ls msg)).terminated = false ∧
    (stream_logs env script (.linesThenError ls msg)).closed = true := by
  unfold stream_logs
  split
  · exact ⟨rfl, rfl, rfl⟩
  · split
    · exact ⟨rfl, rfl, rfl⟩
    · split
      · exact ⟨rfl, rfl, rfl⟩
      · exact ⟨rfl, rfl, rfl⟩

/-! ## Claim C8 -/

/-- Claim C8: in a heartbeat cycle, a spoke answering a non-2xx
status yields exactly one degraded alert, a spoke whose call raises
(connection failure or timeout) yields exactly one offline alert, the
two messages are distinguishable (their first characters differ for
every spoke name and address), and a spoke answering HTTP 200 yields
no alert. -/
theorem heartbeat_alert_kinds (name ip : String) (code : Nat)
    (h : code < 200 ∨ 300 ≤ code) :
    spokeAlerts name ip (.response code) = [degradedMsg name ip code] ∧
    spokeAlerts name ip .failure = [offlineMsg name ip] ∧
    degradedMsg name ip code ≠ offlineMsg name ip ∧
    spokeAlerts name ip (.response 200) = [] := by
  have hne : (code != 200) = true := by
    have : code ≠ 200 := by omega
    simpa using this
  refine ⟨?_, rfl, degradedMsg_ne_offlineMsg name ip name ip code, rfl⟩
  simp [spokeAlerts, hne]

/-- Witness for C8 at HTTP 500. -/
theorem heartbeat_alert_kinds_witness :
    ((500 : Nat) < 200 ∨ 300 ≤ (500 : Nat)) ∧
    (spokeAlerts "alpha" "10.0.0.1" (.response 500) = [degradedMsg "alpha" "10.0.0.1" 500] ∧
      spokeAlerts "alpha" "10.0.0.1" .failure = [offlineMsg "alpha" "10.0.0.1"] ∧
      degradedMsg "alpha" "10.0.0.1" 500 ≠ offlineMsg "alpha" "10.0.0.1" ∧
      spokeAlerts "alpha" "10.0.0.1" (.response 200) = []) :=
  ⟨Or.inr (by decide), heartbeat_alert_kinds "alpha" "10.0.0.1" 500 (Or.inr (by decide))⟩

/-! ## Claim C9 -/

/-- Claim C9: for every `lines` value outside `[1, 10000]` the log
reader rejects the request with a validation error (it never clamps),
and no subprocess is spawned. -/
theorem logs_lines_out_of_range_rejected (env : SpokeEnv) (script : String)
    (user : Option String) (lines : Int)
    (h : lines < 1 ∨ lines > 10000) :
    (get_logs env script user lines).spawned = [] ∧
    logsIsValidationError (get_logs env script user lines).response = true := by
  unfold get_logs
  by_cases hv : invalidScriptName script
  · rw [if_pos hv]
    exact ⟨rfl, rfl⟩
  · rw [if_neg hv, if_pos h]
    exact ⟨rfl, rfl⟩

/-- Witness for C9 at `lines = 0`. -/
theorem logs_lines_out_of_range_rejected_witness :
    ((0 : Int) < 1 ∨ (0 : Int) > 10000) ∧
    ((get_logs envAlice "myserver" none 0).spawned = [] ∧
      logsIsValidationError (get_logs envAlice "myserver" none 0).response = true) :=
  ⟨Or.inl (by decide),
   logs_lines_out_of_range_rejected envAlice "myserver" none 0 (Or.inl (by decide))⟩

/-! ## Claim C10 -/

/-- Claim C10: for a managed user with discovered scripts `{a, b}`,
live sessions `{a, c}` and no corroborating process evidence for `b`,
the reconciler yields exactly three instances: `a` running, `b`
stopped, and `c` running with the zombie flag set — no duplicates. -/
theorem reconcile_fixed_scenario (u : String) (procs : List PyProc)
    (h : procs.all (fun p => !(procMatches u "b" p)) = true) :
    reconcile u ["a", "b"] ["a", "c"] procs =
      [{ user := u, script := "a", session := some "a", status := "running",
         isZombie := false },
       { user := u, script := "b", session := none, status := "stopped",
         isZombie := false },
       { user := u, script := "c", session := some "c", status := "running",
         isZombie := true }] := by
  have ha : scriptIsRunning u "a" ["a", "c"] procs = true := by
    unfold scriptIsRunning
    have h1 : (["a", "c"].any fun s => sessionMatchesScript "a" s) = true := by decide
    rw [h1]
    rfl
  have hb : scriptIsRunning u "b" ["a", "c"] procs = false := by
    unfold scriptIsRunning
    have h1 : (["a", "c"].any fun s => sessionMatchesScript "b" s) = false := by decide
    have h2 : (procs.any fun p => procMatches u "b" p) = false := by
      rw [List.all_eq_true] at h
      rw [List.any_eq_false]
      intro p hp
      have := h p hp
      simpa using this
    rw [h1, h2]
    rfl
  have hf : (["a", "c"].filter fun s => !((["a", "b"] : List String).contains s)) = ["c"] := by
    decide
  unfold reconcile
  rw [hf]
  simp [scriptInstance, zombieInstance, ha, hb]

/-- Witness for C10 with an empty process table (no corroborating
evidence for `b`). -/
theorem reconcile_fixed_scenario_witness :
    (([] : List PyProc).all (fun p => !(procMatches "gameuser" "b" p)) = true) ∧
    reconcile "gameuser" ["a", "b"] ["a", "c"] [] =
      [{ user := "gameuser", script := "a", session := some "a", status := "running",
         isZombie := false },
       { user := "gameuser", script := "b", session := none, status := "stopped",
         isZombie := false },
       { user := "gameuser", script := "c", session := some "c", status := "running",
         isZombie := true }] :=
  ⟨by decide, reconcile_fixed_scenario "gameuser" [] (by decide)⟩

end LGSM
